import Mathlib

/-!
Shallow embedding of the chart viewport pan/zoom logic of
`src/components/shared/chart/Viewport.js` (firefox-profiler front end).

All CSS-pixel and unit-interval quantities are modelled as rationals, so
every arithmetic step of the source is reproduced exactly.  The
higher-order-component plumbing (React state, event listeners) is not
modelled; the pure computations it performs are: the selection/viewport
conversion, the queued pan/zoom selection transforms, the vertical
clamping, the size computation, the preview-selection update batching and
the keyboard-navigation frame logic.
-/

namespace Profiler

/-- A time range, `{ start, end }` in the source (`StartEndRange`).  The
field `end` is a Lean keyword, hence `end_`. -/
structure StartEndRange where
  start : ℚ
  end_ : ℚ
deriving DecidableEq

/-- A `PreviewSelection` value: either `{ hasSelection: false, isModifying }`
or `{ hasSelection: true, isModifying, selectionStart, selectionEnd }`. -/
inductive PreviewSelection where
  | noSelection (isModifying : Bool)
  | selection (isModifying : Bool) (selectionStart selectionEnd : ℚ)
deriving DecidableEq

/-- The `hasSelection` field of a `PreviewSelection`. -/
def PreviewSelection.hasSelection : PreviewSelection → Bool
  | .noSelection _ => false
  | .selection _ _ _ => true

/-- The `HorizontalViewport` record `{ viewportLeft, viewportRight }`. -/
structure HorizontalViewport where
  viewportLeft : ℚ
  viewportRight : ℚ
deriving DecidableEq

/-- The spec invariant for the horizontal viewport:
`0 ≤ viewportLeft < viewportRight ≤ 1`. -/
def HorizontalViewport.valid (hv : HorizontalViewport) : Prop :=
  0 ≤ hv.viewportLeft ∧ hv.viewportLeft < hv.viewportRight ∧ hv.viewportRight ≤ 1

instance (hv : HorizontalViewport) : Decidable hv.valid := by
  unfold HorizontalViewport.valid
  infer_instance

/-- `clamp(min, max, value)` from Viewport.js:
`Math.max(min, Math.min(max, value))`. -/
def clamp (lo hi value : ℚ) : ℚ := max lo (min hi value)

/-- `getHorizontalViewport(previewSelection, timeRange)`: maps a preview
selection into the unit interval of the committed time range; a missing
selection denotes the full viewport `[0, 1]`. -/
def getHorizontalViewport (previewSelection : PreviewSelection)
    (timeRange : StartEndRange) : HorizontalViewport :=
  match previewSelection with
  | .selection _ selectionStart selectionEnd =>
      let timeRangeLength := timeRange.end_ - timeRange.start
      ⟨(selectionStart - timeRange.start) / timeRangeLength,
       (selectionEnd - timeRange.start) / timeRangeLength⟩
  | .noSelection _ => ⟨0, 1⟩

/-- The viewport pair computed inside the transform queued by
`zoomRangeSelection` (Viewport.js lines 505-521): the new length is the old
length times the zoom factor, clamped to `[maximumZoom, 1]`, and the new
left/right are each clamped. -/
def zoomedViewport (maximumZoom center zoomFactor : ℚ)
    (hv : HorizontalViewport) : HorizontalViewport :=
  let viewportLength := hv.viewportRight - hv.viewportLeft
  let newViewportLength := clamp maximumZoom 1 (viewportLength * zoomFactor)
  let deltaViewportLength := newViewportLength - viewportLength
  ⟨clamp 0 (1 - newViewportLength)
     (hv.viewportLeft - deltaViewportLength * center),
   clamp newViewportLength 1
     (hv.viewportRight + deltaViewportLength * (1 - center))⟩

/-- The preview-selection transform queued by `zoomRangeSelection` for the
horizontal-movement-enabled case (Viewport.js lines 503-541): computes the
zoomed viewport pair and converts it back into a time selection; a full
`[0, 1]` result collapses to no selection. -/
def zoomRangeSelection (maximumZoom : ℚ) (timeRange : StartEndRange)
    (center zoomFactor : ℚ) (hv : HorizontalViewport) : PreviewSelection :=
  let vp := zoomedViewport maximumZoom center zoomFactor hv
  if vp.viewportLeft = 0 ∧ vp.viewportRight = 1 then
    PreviewSelection.noSelection false
  else
    let timeRangeLength := timeRange.end_ - timeRange.start
    PreviewSelection.selection false
      (timeRange.start + timeRangeLength * vp.viewportLeft)
      (timeRange.start + timeRangeLength * vp.viewportRight)

/-- The horizontal pan of `moveViewport` (Viewport.js lines 729-739): shift
left/right by the unit offset, then apply the two sequential clamping steps
(the left clamp first, then the right clamp on the updated pair). -/
def panViewportPair (containerWidth offsetX : ℚ)
    (hv : HorizontalViewport) : HorizontalViewport :=
  let viewportLength := hv.viewportRight - hv.viewportLeft
  let unitOffsetX := viewportLength * offsetX / containerWidth
  let newViewportLeft := hv.viewportLeft - unitOffsetX
  let newViewportRight := hv.viewportRight - unitOffsetX
  let vp1 : HorizontalViewport :=
    if newViewportLeft < 0 then ⟨0, viewportLength⟩
    else ⟨newViewportLeft, newViewportRight⟩
  if 1 < vp1.viewportRight then ⟨1 - viewportLength, 1⟩ else vp1

/-- The preview-selection transform queued by `moveViewport` for the
horizontal-movement-enabled case (Viewport.js lines 719-751): a viewport at
full width (or wider) yields no selection, otherwise the panned pair is
converted back into a time selection. -/
def moveViewportHorizontal (containerWidth : ℚ) (timeRange : StartEndRange)
    (offsetX : ℚ) (hv : HorizontalViewport) : PreviewSelection :=
  let viewportLength := hv.viewportRight - hv.viewportLeft
  if 1 ≤ viewportLength then
    PreviewSelection.noSelection false
  else
    let vp := panViewportPair containerWidth offsetX hv
    let timeRangeLength := timeRange.end_ - timeRange.start
    PreviewSelection.selection false
      (timeRange.start + timeRangeLength * vp.viewportLeft)
      (timeRange.start + timeRangeLength * vp.viewportRight)

/-- The vertical part of `moveViewport` (Viewport.js lines 689-709):
returns the new `(viewportTop, viewportBottom)` pair. -/
def moveViewportVertical (maxViewportHeight : ℚ) (startsAtBottom : Bool)
    (containerHeight viewportTop offsetY : ℚ) : ℚ × ℚ :=
  let newViewportTop := viewportTop - offsetY
  let newViewportBottom := newViewportTop + containerHeight
  if maxViewportHeight < containerHeight then
    if startsAtBottom then
      (maxViewportHeight - containerHeight, maxViewportHeight)
    else
      (0, containerHeight)
  else if maxViewportHeight < newViewportBottom then
    (maxViewportHeight - containerHeight, maxViewportHeight)
  else if newViewportTop < 0 then
    (0, containerHeight)
  else
    (newViewportTop, newViewportBottom)

/-- The configuration props of `moveViewport` taken from
`props.viewportProps`. -/
structure MoveViewportConfig where
  maxViewportHeight : ℚ
  startsAtBottom : Bool
  disableHorizontalMovement : Bool
  timeRange : StartEndRange

/-- `moveViewport(offsetX, offsetY)` (Viewport.js lines 665-753): `none`
when the size is not yet set (the move request is ignored); otherwise the
new vertical pair together with the queued horizontal selection transform
(absent when horizontal movement is disabled). -/
def moveViewport (cfg : MoveViewportConfig)
    (containerWidth containerHeight viewportTop : ℚ) (isSizeSet : Bool)
    (offsetX offsetY : ℚ) :
    Option ((ℚ × ℚ) × Option (HorizontalViewport → PreviewSelection)) :=
  if isSizeSet then
    some
      (moveViewportVertical cfg.maxViewportHeight cfg.startsAtBottom
         containerHeight viewportTop offsetY,
       if cfg.disableHorizontalMovement then none
       else some (moveViewportHorizontal containerWidth cfg.timeRange offsetX))
  else
    none

/-- The vertical pair produced by `_setSize` (Viewport.js lines 329-340)
when the measured rectangle height differs from the stored one. -/
def setSizeVertical (startsAtBottom : Bool)
    (rectHeight prevViewportTop prevViewportBottom : ℚ) : ℚ × ℚ :=
  ((if startsAtBottom then prevViewportBottom - rectHeight
    else prevViewportTop),
   (if startsAtBottom then prevViewportBottom
    else prevViewportTop + rectHeight))

/-- A queued preview-selection transform, the element type of
`_pendingPreviewSelectionUpdates`. -/
def SelectionTransform : Type := HorizontalViewport → PreviewSelection

/-- `_addBatchedPreviewSelectionUpdate(callback)` (Viewport.js lines
428-437): appends the callback to the pending list and returns how many
animation frames it requests (one exactly when the list was empty). -/
def addBatchedPreviewSelectionUpdate
    (pendingPreviewSelectionUpdates : List SelectionTransform)
    (callback : SelectionTransform) : List SelectionTransform × ℕ :=
  (pendingPreviewSelectionUpdates ++ [callback],
   if pendingPreviewSelectionUpdates.length = 0 then 1 else 0)

/-- Queue a whole sequence of updates one by one through
`addBatchedPreviewSelectionUpdate`, accumulating the number of animation
frames requested. -/
def queueAll (pendingPreviewSelectionUpdates : List SelectionTransform) :
    List SelectionTransform → List SelectionTransform × ℕ
  | [] => (pendingPreviewSelectionUpdates, 0)
  | callback :: rest =>
      let r := addBatchedPreviewSelectionUpdate
        pendingPreviewSelectionUpdates callback
      let r2 := queueAll r.1 rest
      (r2.1, r.2 + r2.2)

/-- `_flushPendingPreviewSelectionUpdates()` (Viewport.js lines 443-461):
folds all queued transforms in order, each receiving the horizontal
viewport derived from the selection produced so far, and returns the final
selection together with the number of `updatePreviewSelection` calls
issued (one exactly when the pending list is non-empty). -/
def flushPendingPreviewSelectionUpdates (timeRange : StartEndRange)
    (previewSelection : PreviewSelection)
    (pendingUpdates : List SelectionTransform) : PreviewSelection × ℕ :=
  if pendingUpdates.length ≠ 0 then
    (pendingUpdates.foldl
       (fun nextSelection callback =>
         callback (getHorizontalViewport nextSelection timeRange))
       previewSelection,
     1)
  else
    (previewSelection, 0)

/-- `KEYBOARD_NAVIGATION_SPEED` (Viewport.js line 66): pixels per second. -/
def KEYBOARD_NAVIGATION_SPEED : ℚ := 2000

/-- `MAX_KEYBOARD_DELTA` (Viewport.js line 67): pixels per frame cap. -/
def MAX_KEYBOARD_DELTA : ℚ := 500

/-- The per-frame delta of `_keyboardNavigation` (Viewport.js lines
630-635): `Math.min(KEYBOARD_NAVIGATION_SPEED * (timestamp -
lastKeyboardNavigationFrame) * 0.001, MAX_KEYBOARD_DELTA)`. -/
def keyboardDelta (timestamp lastKeyboardNavigationFrame : ℚ) : ℚ :=
  min
    (KEYBOARD_NAVIGATION_SPEED *
      (timestamp - lastKeyboardNavigationFrame) * 0.001)
    MAX_KEYBOARD_DELTA

/-- The `NavigationKey` union type. -/
inductive NavigationKey where
  | zoomIn
  | zoomOut
  | up
  | down
  | left
  | right
deriving DecidableEq

/-- One viewport action issued by a keyboard-navigation frame.  The source
passes `Math.pow(ZOOM_SPEED, ±delta)` to `zoomRangeSelection` at center
0.5; the transcendental power is kept symbolic as the signed delta. -/
inductive NavAction where
  | zoomInBy (delta : ℚ)
  | zoomOutBy (delta : ℚ)
  | moveBy (offsetX offsetY : ℚ)
deriving DecidableEq

/-- The switch of `_keyboardNavigation` (Viewport.js lines 639-660)
mapping a pressed key to the viewport action it issues with a given
delta. -/
def navigationAction (delta : ℚ) : NavigationKey → NavAction
  | .zoomIn => .zoomInBy delta
  | .zoomOut => .zoomOutBy delta
  | .up => .moveBy 0 delta
  | .down => .moveBy 0 (-delta)
  | .left => .moveBy delta 0
  | .right => .moveBy (-delta) 0

/-- The observable outcome of one `_keyboardNavigation` frame. -/
structure KeyboardFrame where
  actions : List NavAction
  lastKeyboardNavigationFrame : ℚ
  scheduledFrames : ℕ
deriving DecidableEq

/-- `_keyboardNavigation(timestamp)` (Viewport.js lines 623-663): with no
keys down it returns immediately without requesting a frame; otherwise it
computes the capped delta, issues one action per pressed key and requests
exactly one successor animation frame.  The JS `Set` of pressed keys is
modelled as its list of elements in insertion order. -/
def keyboardNavigation (keysDown : List NavigationKey)
    (lastKeyboardNavigationFrame timestamp : ℚ) : KeyboardFrame :=
  if keysDown.isEmpty then
    ⟨[], lastKeyboardNavigationFrame, 0⟩
  else
    let delta := keyboardDelta timestamp lastKeyboardNavigationFrame
    ⟨keysDown.map (navigationAction delta), timestamp, 1⟩

/-! ### Helper lemmas -/

theorem le_clamp (lo hi v : ℚ) : lo ≤ clamp lo hi v :=
  le_max_left lo (min hi v)

theorem clamp_le (lo hi v : ℚ) (h : lo ≤ hi) : clamp lo hi v ≤ hi :=
  max_le h (min_le_left hi v)

theorem clamp_eq_self (lo hi v : ℚ) (h1 : lo ≤ v) (h2 : v ≤ hi) :
    clamp lo hi v = v := by
  unfold clamp
  rw [min_eq_right h2, max_eq_right h1]

theorem clamp_same (x v : ℚ) : clamp x x v = x := by
  unfold clamp
  rcases le_total v x with h | h
  · rw [min_eq_right h, max_eq_left h]
  · rw [min_eq_left h, max_self]

/-- The panned pair: left is clamped to 0 or right to 1 exactly as the two
sequential mutation steps of `moveViewport` dictate, and in each case the
width is preserved and the pair stays inside `[0, 1]`. -/
theorem panViewportPair_spec (containerWidth offsetX : ℚ)
    (hv : HorizontalViewport)
    (hw : hv.viewportRight - hv.viewportLeft < 1) :
    0 ≤ (panViewportPair containerWidth offsetX hv).viewportLeft ∧
    (panViewportPair containerWidth offsetX hv).viewportRight ≤ 1 ∧
    (panViewportPair containerWidth offsetX hv).viewportRight -
        (panViewportPair containerWidth offsetX hv).viewportLeft =
      hv.viewportRight - hv.viewportLeft ∧
    (hv.viewportLeft -
          (hv.viewportRight - hv.viewportLeft) * offsetX / containerWidth <
        0 →
      panViewportPair containerWidth offsetX hv =
        ⟨0, hv.viewportRight - hv.viewportLeft⟩) := by
  simp only [panViewportPair]
  split_ifs with hA hB hB
  · exfalso
    simp only at hB
    linarith
  · refine ⟨le_refl (0 : ℚ), ?_, ?_, fun _ => rfl⟩
    · show hv.viewportRight - hv.viewportLeft ≤ 1
      linarith
    · show hv.viewportRight - hv.viewportLeft - 0 =
        hv.viewportRight - hv.viewportLeft
      ring
  · refine ⟨?_, le_refl (1 : ℚ), ?_, fun hx => absurd hx hA⟩
    · show (0 : ℚ) ≤ 1 - (hv.viewportRight - hv.viewportLeft)
      linarith
    · show (1 : ℚ) - (1 - (hv.viewportRight - hv.viewportLeft)) =
        hv.viewportRight - hv.viewportLeft
      ring
  · have hA' : (0 : ℚ) ≤ hv.viewportLeft -
        (hv.viewportRight - hv.viewportLeft) * offsetX / containerWidth :=
      not_lt.mp hA
    have hB' : hv.viewportRight -
        (hv.viewportRight - hv.viewportLeft) * offsetX / containerWidth ≤ 1 := by
      simp only at hB
      exact not_lt.mp hB
    refine ⟨hA', hB', ?_, fun hx => absurd hx hA⟩
    show hv.viewportRight -
          (hv.viewportRight - hv.viewportLeft) * offsetX / containerWidth -
        (hv.viewportLeft -
          (hv.viewportRight - hv.viewportLeft) * offsetX / containerWidth) =
      hv.viewportRight - hv.viewportLeft
    ring

/-- Converting a selection built from unit positions `a`, `b` over a
non-degenerate time range back through `getHorizontalViewport` recovers
exactly `⟨a, b⟩`. -/
theorem getHorizontalViewport_selection (timeRange : StartEndRange)
    (m : Bool) (a b : ℚ) (h : timeRange.start < timeRange.end_) :
    getHorizontalViewport
      (PreviewSelection.selection m
        (timeRange.start + (timeRange.end_ - timeRange.start) * a)
        (timeRange.start + (timeRange.end_ - timeRange.start) * b))
      timeRange = ⟨a, b⟩ := by
  have hne : timeRange.end_ - timeRange.start ≠ 0 :=
    sub_ne_zero.mpr (ne_of_gt h)
  simp only [getHorizontalViewport, add_sub_cancel_left,
    mul_div_cancel_left₀ _ hne]

/-- The width of the zoomed viewport pair equals the clamped new length,
whatever the center and zoom factor are. -/
theorem zoomedViewport_width (maximumZoom center zoomFactor : ℚ)
    (hv : HorizontalViewport) (hmz : maximumZoom ≤ 1) :
    (zoomedViewport maximumZoom center zoomFactor hv).viewportRight -
        (zoomedViewport maximumZoom center zoomFactor hv).viewportLeft =
      clamp maximumZoom 1
        ((hv.viewportRight - hv.viewportLeft) * zoomFactor) := by
  simp only [zoomedViewport]
  set L' := clamp maximumZoom 1
    ((hv.viewportRight - hv.viewportLeft) * zoomFactor) with hLdef
  have hL1 : L' ≤ 1 := clamp_le _ _ _ hmz
  have key : hv.viewportRight +
        (L' - (hv.viewportRight - hv.viewportLeft)) * (1 - center) =
      (hv.viewportLeft -
        (L' - (hv.viewportRight - hv.viewportLeft)) * center) + L' := by
    ring
  rw [key]
  set a := hv.viewportLeft -
    (L' - (hv.viewportRight - hv.viewportLeft)) * center with hadef
  show clamp L' 1 (a + L') - clamp 0 (1 - L') a = L'
  unfold clamp
  rcases lt_or_le a 0 with h1 | h1
  · rw [min_eq_right (by linarith : a ≤ 1 - L'), max_eq_left h1.le,
      min_eq_right (by linarith : a + L' ≤ 1),
      max_eq_left (by linarith : a + L' ≤ L')]
    ring
  · rcases le_or_lt a (1 - L') with h2 | h2
    · rw [min_eq_right h2, max_eq_right h1,
        min_eq_right (by linarith : a + L' ≤ 1),
        max_eq_right (by linarith : L' ≤ a + L')]
      ring
    · rw [min_eq_left h2.le, max_eq_right (by linarith : (0 : ℚ) ≤ 1 - L'),
        min_eq_left (by linarith : (1 : ℚ) ≤ a + L'), max_eq_right hL1]
      ring

/-! ### Claim theorems -/

/-- C1: for every horizontal pan (`moveViewport` with horizontal movement
enabled, size set, and current viewport width strictly less than 1) the
queued selection transform is the horizontal pan transform, and the
viewport it produces satisfies `0 ≤ left`, `right ≤ 1`, with the width
`right - left` equal to the width before the pan; in particular an offset
that would push the left edge below 0 clamps it to 0 while preserving the
width. -/
theorem c1_pan_clamps_and_preserves_width (cfg : MoveViewportConfig)
    (containerWidth containerHeight viewportTop offsetX offsetY : ℚ)
    (hv : HorizontalViewport)
    (hmove : cfg.disableHorizontalMovement = false)
    (htr : cfg.timeRange.start < cfg.timeRange.end_)
    (hw : hv.viewportRight - hv.viewportLeft < 1) :
    moveViewport cfg containerWidth containerHeight viewportTop true
        offsetX offsetY =
      some (moveViewportVertical cfg.maxViewportHeight cfg.startsAtBottom
          containerHeight viewportTop offsetY,
        some (moveViewportHorizontal containerWidth cfg.timeRange offsetX)) ∧
    getHorizontalViewport
        (moveViewportHorizontal containerWidth cfg.timeRange offsetX hv)
        cfg.timeRange =
      panViewportPair containerWidth offsetX hv ∧
    0 ≤ (panViewportPair containerWidth offsetX hv).viewportLeft ∧
    (panViewportPair containerWidth offsetX hv).viewportRight ≤ 1 ∧
    (panViewportPair containerWidth offsetX hv).viewportRight -
        (panViewportPair containerWidth offsetX hv).viewportLeft =
      hv.viewportRight - hv.viewportLeft ∧
    (hv.viewportLeft -
          (hv.viewportRight - hv.viewportLeft) * offsetX / containerWidth <
        0 →
      panViewportPair containerWidth offsetX hv =
        ⟨0, hv.viewportRight - hv.viewportLeft⟩) := by
  obtain ⟨p1, p2, p3, p4⟩ := panViewportPair_spec containerWidth offsetX hv hw
  refine ⟨?_, ?_, p1, p2, p3, p4⟩
  · simp [moveViewport, hmove]
  · simp only [moveViewportHorizontal]
    rw [if_neg (not_le.mpr hw)]
    exact getHorizontalViewport_selection _ _ _ _ htr

/-- Witness for C1 at the spec example: viewport `[0.25, 0.75]`, a pan
offset that would push the left edge below 0; the left edge clamps to 0 and
the width is preserved. -/
theorem c1_witness :
    0 ≤ (panViewportPair 100 100 ⟨1/4, 3/4⟩).viewportLeft ∧
    panViewportPair 100 100 ⟨1/4, 3/4⟩ = ⟨0, 3/4 - 1/4⟩ := by
  have h := c1_pan_clamps_and_preserves_width ⟨100, false, false, ⟨0, 2⟩⟩
    100 50 0 100 0 ⟨1/4, 3/4⟩ rfl (by norm_num) (by norm_num)
  exact ⟨h.2.2.1, h.2.2.2.2.2 (by norm_num)⟩

/-- C2: for every zoom operation, the width of the resulting viewport,
after the new length is computed as the old length times the zoom factor
and left and right are each clamped, lies between `maximumZoom` and 1,
assuming `0 < maximumZoom ≤ 1` and a valid starting viewport. -/
theorem c2_zoom_width_bounded (maximumZoom center zoomFactor : ℚ)
    (hv : HorizontalViewport) (_hmz0 : 0 < maximumZoom)
    (hmz1 : maximumZoom ≤ 1) (_hvalid : hv.valid) :
    maximumZoom ≤
        (zoomedViewport maximumZoom center zoomFactor hv).viewportRight -
          (zoomedViewport maximumZoom center zoomFactor hv).viewportLeft ∧
    (zoomedViewport maximumZoom center zoomFactor hv).viewportRight -
        (zoomedViewport maximumZoom center zoomFactor hv).viewportLeft ≤
      1 := by
  rw [zoomedViewport_width _ _ _ _ hmz1]
  exact ⟨le_clamp _ _ _, clamp_le _ _ _ hmz1⟩

/-- Witness for C2: zooming the full viewport out by factor 1/2 with
maximum zoom 1/10 keeps the width inside `[1/10, 1]`. -/
theorem c2_witness :
    (1 : ℚ)/10 ≤
        (zoomedViewport (1/10) (1/2) (1/2) ⟨0, 1⟩).viewportRight -
          (zoomedViewport (1/10) (1/2) (1/2) ⟨0, 1⟩).viewportLeft ∧
    (zoomedViewport (1/10) (1/2) (1/2) ⟨0, 1⟩).viewportRight -
        (zoomedViewport (1/10) (1/2) (1/2) ⟨0, 1⟩).viewportLeft ≤ 1 :=
  c2_zoom_width_bounded (1/10) (1/2) (1/2) ⟨0, 1⟩ (by norm_num) (by norm_num)
    ⟨by norm_num, by norm_num, by norm_num⟩

/-- C3 counterexample: the claim that the time value at the anchor is
invariant under every zoom fails once the clamps fire.  With viewport
`[0, 1/2]`, center `1/2 ∈ [0, 1]`, zoom factor 4 and maximum zoom `1/10`,
the value at the anchored unit position changes from `1/4` to `1/2`. -/
theorem c3_counterexample :
    (zoomedViewport (1/10) (1/2) 4 ⟨0, 1/2⟩).viewportLeft +
        ((zoomedViewport (1/10) (1/2) 4 ⟨0, 1/2⟩).viewportRight -
          (zoomedViewport (1/10) (1/2) 4 ⟨0, 1/2⟩).viewportLeft) * (1/2) ≠
      (⟨0, (1 : ℚ)/2⟩ : HorizontalViewport).viewportLeft +
        ((⟨0, (1 : ℚ)/2⟩ : HorizontalViewport).viewportRight -
          (⟨0, (1 : ℚ)/2⟩ : HorizontalViewport).viewportLeft) * (1/2) := by
  norm_num [zoomedViewport, clamp]

/-- C3 (amended): for every zoom anchored at center `c`, provided neither
position clamp fires — with `newLength` the clamped length
`clamp maximumZoom 1 ((right - left) * zoomFactor)`, the anchored left
edge `left - (newLength - oldLength) * c` lies within
`[0, 1 - newLength]` — the time value at unit position `c` of the
viewport is the same before and after the zoom, exactly over rational
arithmetic; the length clamp itself may fire. -/
theorem c3_zoom_anchor_invariant_amended (maximumZoom center zoomFactor : ℚ)
    (hv : HorizontalViewport)
    (hleft_lo : 0 ≤ hv.viewportLeft -
      (clamp maximumZoom 1
          ((hv.viewportRight - hv.viewportLeft) * zoomFactor) -
        (hv.viewportRight - hv.viewportLeft)) * center)
    (hleft_hi : hv.viewportLeft -
        (clamp maximumZoom 1
            ((hv.viewportRight - hv.viewportLeft) * zoomFactor) -
          (hv.viewportRight - hv.viewportLeft)) * center ≤
      1 - clamp maximumZoom 1
        ((hv.viewportRight - hv.viewportLeft) * zoomFactor)) :
    (zoomedViewport maximumZoom center zoomFactor hv).viewportLeft +
        ((zoomedViewport maximumZoom center zoomFactor hv).viewportRight -
          (zoomedViewport maximumZoom center zoomFactor hv).viewportLeft) *
          center =
      hv.viewportLeft + (hv.viewportRight - hv.viewportLeft) * center := by
  have key : hv.viewportRight +
      (clamp maximumZoom 1
          ((hv.viewportRight - hv.viewportLeft) * zoomFactor) -
        (hv.viewportRight - hv.viewportLeft)) * (1 - center) =
      (hv.viewportLeft -
        (clamp maximumZoom 1
            ((hv.viewportRight - hv.viewportLeft) * zoomFactor) -
          (hv.viewportRight - hv.viewportLeft)) * center) +
      clamp maximumZoom 1
        ((hv.viewportRight - hv.viewportLeft) * zoomFactor) := by
    ring
  simp only [zoomedViewport]
  rw [clamp_eq_self _ _ _ hleft_lo hleft_hi, key,
    clamp_eq_self (clamp maximumZoom 1
        ((hv.viewportRight - hv.viewportLeft) * zoomFactor)) 1
      ((hv.viewportLeft -
          (clamp maximumZoom 1
              ((hv.viewportRight - hv.viewportLeft) * zoomFactor) -
            (hv.viewportRight - hv.viewportLeft)) * center) +
        clamp maximumZoom 1
          ((hv.viewportRight - hv.viewportLeft) * zoomFactor))
      (by linarith) (by linarith)]
  ring

/-- Witness for C3 (amended): viewport `[2/5, 3/5]` zoomed in by factor
`1/100` with maximum zoom `1/10` at center `1/2`; the length clamps from
`1/500` up to `1/10`, yet the anchored time value stays at `1/2`. -/
theorem c3_witness :
    (zoomedViewport (1/10) (1/2) (1/100) ⟨2/5, 3/5⟩).viewportLeft +
        ((zoomedViewport (1/10) (1/2) (1/100) ⟨2/5, 3/5⟩).viewportRight -
          (zoomedViewport (1/10) (1/2) (1/100) ⟨2/5, 3/5⟩).viewportLeft) *
          (1/2) =
      (⟨(2 : ℚ)/5, (3 : ℚ)/5⟩ : HorizontalViewport).viewportLeft +
        ((⟨(2 : ℚ)/5, (3 : ℚ)/5⟩ : HorizontalViewport).viewportRight -
          (⟨(2 : ℚ)/5, (3 : ℚ)/5⟩ : HorizontalViewport).viewportLeft) *
          (1/2) :=
  c3_zoom_anchor_invariant_amended (1/10) (1/2) (1/100) ⟨2/5, 3/5⟩
    (by norm_num [clamp]) (by norm_num [clamp])

/-- C4 counterexample: the horizontal viewport computed from an arbitrary
preview selection need not satisfy the invariant; a selection starting
before the committed range maps to a negative `viewportLeft`. -/
theorem c4_counterexample :
    (getHorizontalViewport (PreviewSelection.selection false (-1) (1/2))
        ⟨0, 1⟩).viewportLeft < 0 := by
  norm_num [getHorizontalViewport]

/-- C4 (amended): the invariant `0 ≤ left < right ≤ 1` holds for the
horizontal viewport computed from a preview selection that lies inside the
committed time range (and from no selection), and is preserved by the pan
and zoom transforms; `bottom - top` equals the container height after the
size is set and after every vertical move. -/
theorem c4_viewport_invariant_amended (timeRange : StartEndRange) (m : Bool)
    (s e maximumZoom center zoomFactor containerWidth offsetX : ℚ)
    (hv : HorizontalViewport) (startsAtBottom : Bool)
    (maxViewportHeight containerHeight viewportTop offsetY rectHeight
      prevTop prevBottom : ℚ) :
    (timeRange.start < timeRange.end_ → timeRange.start ≤ s → s < e →
      e ≤ timeRange.end_ →
      (getHorizontalViewport (PreviewSelection.selection m s e)
        timeRange).valid) ∧
    (getHorizontalViewport (PreviewSelection.noSelection m)
      timeRange).valid ∧
    (timeRange.start < timeRange.end_ → hv.valid →
      (getHorizontalViewport
        (moveViewportHorizontal containerWidth timeRange offsetX hv)
        timeRange).valid) ∧
    (timeRange.start < timeRange.end_ → hv.valid → 0 < maximumZoom →
      maximumZoom ≤ 1 →
      (getHorizontalViewport
        (zoomRangeSelection maximumZoom timeRange center zoomFactor hv)
        timeRange).valid) ∧
    ((setSizeVertical startsAtBottom rectHeight prevTop prevBottom).2 -
      (setSizeVertical startsAtBottom rectHeight prevTop prevBottom).1 =
      rectHeight) ∧
    ((moveViewportVertical maxViewportHeight startsAtBottom containerHeight
        viewportTop offsetY).2 -
      (moveViewportVertical maxViewportHeight startsAtBottom containerHeight
        viewportTop offsetY).1 =
      containerHeight) := by
  refine ⟨?_, ?_, ?_, ?_, ?_, ?_⟩
  · intro htr hs hse he
    have hTL : (0 : ℚ) < timeRange.end_ - timeRange.start := by linarith
    refine ⟨?_, ?_, ?_⟩
    · show 0 ≤ (s - timeRange.start) / (timeRange.end_ - timeRange.start)
      exact div_nonneg (by linarith) hTL.le
    · show (s - timeRange.start) / (timeRange.end_ - timeRange.start) <
        (e - timeRange.start) / (timeRange.end_ - timeRange.start)
      exact (div_lt_div_iff_of_pos_right hTL).mpr (by linarith)
    · show (e - timeRange.start) / (timeRange.end_ - timeRange.start) ≤ 1
      rw [div_le_one hTL]
      linarith
  · exact ⟨le_refl (0 : ℚ), by norm_num [getHorizontalViewport],
      le_refl (1 : ℚ)⟩
  · intro htr hvalid
    obtain ⟨hv0, hvlr, hv1⟩ := hvalid
    by_cases hwide : 1 ≤ hv.viewportRight - hv.viewportLeft
    · simp only [moveViewportHorizontal]
      rw [if_pos hwide]
      exact ⟨le_refl (0 : ℚ), by norm_num [getHorizontalViewport],
      le_refl (1 : ℚ)⟩
    · have hw : hv.viewportRight - hv.viewportLeft < 1 := not_le.mp hwide
      obtain ⟨p1, p2, p3, _⟩ := panViewportPair_spec containerWidth offsetX hv hw
      simp only [moveViewportHorizontal]
      rw [if_neg hwide, getHorizontalViewport_selection _ _ _ _ htr]
      exact ⟨p1, by linarith, p2⟩
  · intro htr hvalid hmz0 hmz1
    have hwidth := zoomedViewport_width maximumZoom center zoomFactor hv hmz1
    have hmzle := le_clamp maximumZoom 1
      ((hv.viewportRight - hv.viewportLeft) * zoomFactor)
    have hle1 := clamp_le maximumZoom 1
      ((hv.viewportRight - hv.viewportLeft) * zoomFactor) hmz1
    simp only [zoomRangeSelection]
    split_ifs with hfull
    · exact ⟨le_refl (0 : ℚ), by norm_num [getHorizontalViewport],
      le_refl (1 : ℚ)⟩
    · rw [getHorizontalViewport_selection _ _ _ _ htr]
      refine ⟨le_clamp _ _ _, by linarith, ?_⟩
      show (zoomedViewport maximumZoom center zoomFactor hv).viewportRight ≤ 1
      exact clamp_le _ _ _ (by linarith)
  · cases startsAtBottom <;> simp [setSizeVertical]
  · simp only [moveViewportVertical]
    split_ifs <;> · show _ - _ = containerHeight; ring

/-- Witness for C4 (amended): concrete in-range selection and pan over the
committed range `[0, 1]`. -/
theorem c4_witness :
    (getHorizontalViewport (PreviewSelection.selection false (1/2) (3/4))
      ⟨0, 1⟩).valid ∧
    (getHorizontalViewport (moveViewportHorizontal 100 ⟨0, 1⟩ 30
      ⟨1/4, 3/4⟩) ⟨0, 1⟩).valid := by
  have h := c4_viewport_invariant_amended ⟨0, 1⟩ false (1/2) (3/4) (1/10)
    (1/2) (1/2) 100 30 ⟨1/4, 3/4⟩ false 100 50 0 0 50 0 50
  exact ⟨h.1 (by norm_num) (by norm_num) (by norm_num) (by norm_num),
    h.2.2.1 (by norm_num) ⟨by norm_num, by norm_num, by norm_num⟩⟩

/-- C5: an operation that leaves the viewport at full width emits the
"none" selection, and only then: a zoom whose resulting width is at least
1 yields `hasSelection = false` and one with width below 1 yields
`hasSelection = true` (assuming `maximumZoom ≤ 1`); a pan starting from a
viewport of width at least 1 yields `hasSelection = false` and one
starting below width 1 yields `hasSelection = true`. -/
theorem c5_full_width_collapses_selection (maximumZoom : ℚ)
    (timeRange : StartEndRange) (center zoomFactor containerWidth offsetX : ℚ)
    (hv : HorizontalViewport) (hmz1 : maximumZoom ≤ 1) :
    (1 ≤ (zoomedViewport maximumZoom center zoomFactor hv).viewportRight -
        (zoomedViewport maximumZoom center zoomFactor hv).viewportLeft →
      (zoomRangeSelection maximumZoom timeRange center zoomFactor
        hv).hasSelection = false) ∧
    ((zoomedViewport maximumZoom center zoomFactor hv).viewportRight -
        (zoomedViewport maximumZoom center zoomFactor hv).viewportLeft < 1 →
      (zoomRangeSelection maximumZoom timeRange center zoomFactor
        hv).hasSelection = true) ∧
    (1 ≤ hv.viewportRight - hv.viewportLeft →
      (moveViewportHorizontal containerWidth timeRange offsetX
        hv).hasSelection = false) ∧
    (hv.viewportRight - hv.viewportLeft < 1 →
      (moveViewportHorizontal containerWidth timeRange offsetX
        hv).hasSelection = true) := by
  have hwidth := zoomedViewport_width maximumZoom center zoomFactor hv hmz1
  have hle1 := clamp_le maximumZoom 1
    ((hv.viewportRight - hv.viewportLeft) * zoomFactor) hmz1
  refine ⟨?_, ?_, ?_, ?_⟩
  · intro hbig
    have hLone : clamp maximumZoom 1
        ((hv.viewportRight - hv.viewportLeft) * zoomFactor) = 1 := by
      linarith [hwidth ▸ hbig]
    have hleft : (zoomedViewport maximumZoom center zoomFactor
        hv).viewportLeft = 0 := by
      simp only [zoomedViewport]
      rw [hLone, sub_self]
      exact clamp_same 0 _
    have hright : (zoomedViewport maximumZoom center zoomFactor
        hv).viewportRight = 1 := by
      simp only [zoomedViewport]
      rw [hLone]
      exact clamp_same 1 _
    simp only [zoomRangeSelection]
    rw [if_pos ⟨hleft, hright⟩]
    rfl
  · intro hsmall
    simp only [zoomRangeSelection]
    split_ifs with hfull
    · exfalso
      rw [hfull.1, hfull.2] at hsmall
      norm_num at hsmall
    · rfl
  · intro hbig
    simp only [moveViewportHorizontal]
    rw [if_pos hbig]
    rfl
  · intro hsmall
    simp only [moveViewportHorizontal]
    rw [if_neg (not_le.mpr hsmall)]
    rfl

/-- Witness for C5: zooming the full viewport out keeps it at full width
and emits no selection; panning a half-width viewport emits a selection. -/
theorem c5_witness :
    (zoomRangeSelection (1/2) ⟨0, 1⟩ (1/2) 2 ⟨0, 1⟩).hasSelection = false ∧
    (moveViewportHorizontal 100 ⟨0, 1⟩ 30 ⟨1/4, 3/4⟩).hasSelection =
      true := by
  have h := c5_full_width_collapses_selection (1/2) ⟨0, 1⟩ (1/2) 2 100 30
    ⟨0, 1⟩ (by norm_num)
  have h2 := c5_full_width_collapses_selection (1/2) ⟨0, 1⟩ (1/2) 2 100 30
    ⟨1/4, 3/4⟩ (by norm_num)
  exact ⟨h.1 (by norm_num [zoomedViewport, clamp]),
    h2.2.2.2 (by norm_num)⟩

/-- C6 counterexample: when the container height exceeds
`maxViewportHeight` and the chart does not start at the bottom, the
anchored viewport has `bottom = containerHeight > maxViewportHeight`, so
the claimed unconditional bound `viewportBottom ≤ maxViewportHeight`
fails (with `maxViewportHeight = 10`, `containerHeight = 20`). -/
theorem c6_counterexample :
    ¬ ((moveViewportVertical 10 false 20 0 0).2 ≤ 10) := by
  norm_num [moveViewportVertical]

/-- C6 (amended): for every vertical pan with
`containerHeight ≤ maxViewportHeight`, the resulting `viewportTop` is
nonnegative and `viewportBottom` is at most `maxViewportHeight`; when the
container height exceeds `maxViewportHeight`, the viewport is anchored to
the bottom (`top = maxViewportHeight - containerHeight`,
`bottom = maxViewportHeight`) if `startsAtBottom` and to the top
(`top = 0`, `bottom = containerHeight`) otherwise. -/
theorem c6_vertical_pan_clamped_amended (maxViewportHeight : ℚ)
    (startsAtBottom : Bool) (containerHeight viewportTop offsetY : ℚ) :
    (containerHeight ≤ maxViewportHeight →
      0 ≤ (moveViewportVertical maxViewportHeight startsAtBottom
        containerHeight viewportTop offsetY).1 ∧
      (moveViewportVertical maxViewportHeight startsAtBottom containerHeight
        viewportTop offsetY).2 ≤ maxViewportHeight) ∧
    (maxViewportHeight < containerHeight →
      moveViewportVertical maxViewportHeight startsAtBottom containerHeight
          viewportTop offsetY =
        if startsAtBottom then
          (maxViewportHeight - containerHeight, maxViewportHeight)
        else (0, containerHeight)) := by
  constructor
  · intro hch
    simp only [moveViewportVertical]
    split_ifs with h1 h2 h3 h4
    · exact absurd hch (not_le.mpr h1)
    · exact absurd hch (not_le.mpr h1)
    · refine ⟨?_, le_refl maxViewportHeight⟩
      show (0 : ℚ) ≤ maxViewportHeight - containerHeight
      linarith
    · exact ⟨le_refl (0 : ℚ), hch⟩
    · exact ⟨not_lt.mp h4, not_lt.mp h3⟩
  · intro hc
    simp only [moveViewportVertical]
    rw [if_pos hc]

/-- Witness for C6 (amended): a downward pan that hits the bottom clamp
with container height 20 inside content height 100, and the small-content
anchoring with container height 20 over content height 10. -/
theorem c6_witness :
    (0 ≤ (moveViewportVertical 100 false 20 0 (-200)).1 ∧
      (moveViewportVertical 100 false 20 0 (-200)).2 ≤ 100) ∧
    moveViewportVertical 10 false 20 0 0 = (0, 20) := by
  have h := c6_vertical_pan_clamped_amended 100 false 20 0 (-200)
  have h2 := c6_vertical_pan_clamped_amended 10 false 20 0 0
  refine ⟨h.1 (by norm_num), ?_⟩
  have := h2.2 (by norm_num)
  simpa using this

/-- Queueing updates preserves submission order: the pending list after
queueing is the old pending list followed by the new callbacks. -/
theorem queueAll_fst (pending cbs : List SelectionTransform) :
    (queueAll pending cbs).1 = pending ++ cbs := by
  induction cbs generalizing pending with
  | nil => simp [queueAll]
  | cons c cs ih =>
      simp only [queueAll, addBatchedPreviewSelectionUpdate]
      rw [ih]
      simp

/-- Queueing onto a non-empty pending list requests no animation frame. -/
theorem queueAll_snd_nonempty (pending cbs : List SelectionTransform)
    (h : pending ≠ []) : (queueAll pending cbs).2 = 0 := by
  induction cbs generalizing pending with
  | nil => rfl
  | cons c cs ih =>
      simp only [queueAll, addBatchedPreviewSelectionUpdate]
      rw [if_neg (by simpa using h), ih (pending ++ [c]) (by simp)]

/-- C7: flushing the batched updates folds every queued transform in
submission order, each transform receiving the horizontal viewport derived
from the selection produced so far (starting from the current preview
selection), and issues exactly one `updatePreviewSelection` call per
animation frame regardless of how many pan/zoom events were queued: a
non-empty batch queued onto an empty pending list requests exactly one
frame, and its flush makes exactly one update call whose argument is the
in-order fold. -/
theorem c7_batched_updates_fold_in_order (timeRange : StartEndRange)
    (previewSelection : PreviewSelection) (cbs : List SelectionTransform)
    (cb : SelectionTransform) (h : cbs ≠ []) :
    (queueAll [] cbs).1 = cbs ∧
    (queueAll [] cbs).2 = 1 ∧
    (flushPendingPreviewSelectionUpdates timeRange previewSelection
      (queueAll [] cbs).1).2 = 1 ∧
    (flushPendingPreviewSelectionUpdates timeRange previewSelection
        (queueAll [] cbs).1).1 =
      cbs.foldl (fun nextSelection callback =>
          callback (getHorizontalViewport nextSelection timeRange))
        previewSelection ∧
    (flushPendingPreviewSelectionUpdates timeRange previewSelection
      (cbs ++ [cb])).1 =
      cb (getHorizontalViewport
        (flushPendingPreviewSelectionUpdates timeRange previewSelection
          cbs).1 timeRange) := by
  obtain ⟨c, cs, rfl⟩ : ∃ c cs, cbs = c :: cs := by
    cases cbs with
    | nil => exact absurd rfl h
    | cons c cs => exact ⟨c, cs, rfl⟩
  have hfst : (queueAll [] (c :: cs)).1 = c :: cs := queueAll_fst [] (c :: cs)
  have hsnd : (queueAll [] (c :: cs)).2 = 1 := by
    simp only [queueAll, addBatchedPreviewSelectionUpdate]
    rw [queueAll_snd_nonempty ([] ++ [c]) cs (by simp)]
    simp
  refine ⟨hfst, hsnd, ?_, ?_, ?_⟩
  · rw [hfst]
    simp [flushPendingPreviewSelectionUpdates]
  · rw [hfst]
    simp [flushPendingPreviewSelectionUpdates]
  · simp only [flushPendingPreviewSelectionUpdates]
    rw [if_pos (by simp), if_pos (by simp)]
    simp [List.foldl_append]

/-- Witness for C7: a two-element batch flushed over the committed range
`[0, 1]`: one frame, one update call, and the two transforms compose in
order. -/
theorem c7_witness :
    (queueAll [] [moveViewportHorizontal 100 ⟨0, 1⟩ 30,
        zoomRangeSelection (1/10) ⟨0, 1⟩ (1/2) (1/2)]).2 = 1 ∧
    (flushPendingPreviewSelectionUpdates ⟨0, 1⟩
      (PreviewSelection.noSelection false)
      (queueAll [] [moveViewportHorizontal 100 ⟨0, 1⟩ 30,
        zoomRangeSelection (1/10) ⟨0, 1⟩ (1/2) (1/2)]).1).2 = 1 := by
  have h := c7_batched_updates_fold_in_order ⟨0, 1⟩
    (PreviewSelection.noSelection false)
    [moveViewportHorizontal 100 ⟨0, 1⟩ 30,
      zoomRangeSelection (1/10) ⟨0, 1⟩ (1/2) (1/2)]
    (moveViewportHorizontal 100 ⟨0, 1⟩ 30) (by simp)
  exact ⟨h.2.1, h.2.2.1⟩

/-- C8: the movement delta of a keyboard-navigation frame equals the
minimum of `KEYBOARD_NAVIGATION_SPEED` (2000 px/s) times the elapsed time
in seconds and `MAX_KEYBOARD_DELTA` (500 px), so it never exceeds 500
pixels however long the frame gap is; every action the frame issues uses
that delta. -/
theorem c8_keyboard_delta_capped (keysDown : List NavigationKey)
    (lastFrame timestamp : ℚ) (h : keysDown ≠ []) :
    keyboardDelta timestamp lastFrame =
      min (KEYBOARD_NAVIGATION_SPEED * ((timestamp - lastFrame) / 1000))
        MAX_KEYBOARD_DELTA ∧
    keyboardDelta timestamp lastFrame ≤ 500 ∧
    (keyboardNavigation keysDown lastFrame timestamp).actions =
      keysDown.map (navigationAction (keyboardDelta timestamp lastFrame)) := by
  refine ⟨?_, ?_, ?_⟩
  · unfold keyboardDelta
    have h3 : (0.001 : ℚ) = 1/1000 := by norm_num
    rw [h3]
    ring_nf
  · exact min_le_right _ _
  · cases keysDown with
    | nil => exact absurd rfl h
    | cons a as => rfl

/-- Witness for C8: a 16 ms frame gap gives delta `min(32, 500) = 32`,
below the 500 px cap. -/
theorem c8_witness :
    keyboardDelta 16 0 =
      min (KEYBOARD_NAVIGATION_SPEED * ((16 - 0) / 1000))
        MAX_KEYBOARD_DELTA ∧
    keyboardDelta 16 0 ≤ 500 ∧
    (keyboardNavigation [NavigationKey.left] 0 16).actions =
      [NavigationKey.left].map (navigationAction (keyboardDelta 16 0)) :=
  c8_keyboard_delta_capped [NavigationKey.left] 0 16 (by simp)

/-- C9: the keyboard-navigation loop self-terminates: a frame with no
pressed navigation keys schedules no successor frame (and leaves the state
unchanged), and a frame with a non-empty set of pressed keys schedules
exactly one successor frame. -/
theorem c9_keyboard_navigation_self_terminates
    (keysDown : List NavigationKey) (lastFrame timestamp : ℚ) :
    (keysDown = [] →
      (keyboardNavigation keysDown lastFrame timestamp).scheduledFrames =
        0 ∧
      keyboardNavigation keysDown lastFrame timestamp =
        ⟨[], lastFrame, 0⟩) ∧
    (keysDown ≠ [] →
      (keyboardNavigation keysDown lastFrame timestamp).scheduledFrames =
        1) := by
  constructor
  · rintro rfl
    exact ⟨rfl, rfl⟩
  · intro h
    cases keysDown with
    | nil => exact absurd rfl h
    | cons a as => rfl

/-- Witness for C9: no keys pressed schedules nothing; one key pressed
schedules exactly one frame. -/
theorem c9_witness :
    (keyboardNavigation [] 0 16).scheduledFrames = 0 ∧
    (keyboardNavigation [NavigationKey.zoomIn] 0 16).scheduledFrames =
      1 :=
  ⟨(c9_keyboard_navigation_self_terminates [] 0 16).1 rfl |>.1,
   (c9_keyboard_navigation_self_terminates [NavigationKey.zoomIn] 0 16).2
     (by simp)⟩

/-- C10: selection-to-viewport conversion inverts viewport-to-selection
conversion: for every time range with `end > start` and every pair
`(left, right)`, `getHorizontalViewport` applied to the selection
`{selectionStart = start + (end - start) * left, selectionEnd = start +
(end - start) * right, hasSelection = true}` returns exactly
`(left, right)`, exactly over rational arithmetic. -/
theorem c10_selection_viewport_roundtrip (timeRange : StartEndRange)
    (m : Bool) (left right : ℚ)
    (h : timeRange.start < timeRange.end_) :
    getHorizontalViewport
      (PreviewSelection.selection m
        (timeRange.start + (timeRange.end_ - timeRange.start) * left)
        (timeRange.start + (timeRange.end_ - timeRange.start) * right))
      timeRange = ⟨left, right⟩ :=
  getHorizontalViewport_selection timeRange m left right h

/-- Witness for C10: over the range `[0, 2]`, the selection built from the
viewport `(1/4, 3/4)` maps back to `(1/4, 3/4)`. -/
theorem c10_witness :
    getHorizontalViewport
      (PreviewSelection.selection true (0 + (2 - 0) * (1/4))
        (0 + (2 - 0) * (3/4))) ⟨0, 2⟩ =
      ⟨1/4, 3/4⟩ :=
  c10_selection_viewport_roundtrip ⟨0, 2⟩ true (1/4) (3/4) (by norm_num)

end Profiler
